import Mathlib

/-!
Shallow embedding of `src/onnxruntime/core/providers/cpu/nn/layer_norm_impl.cc`
(`LayerNormImpl::ComputeImpl`, lines 20-120), the CPU LayerNormalization /
SimplifiedLayerNormalization (RMS-norm) kernel.

The storage element type `T` (float or double in the source) is modelled as an
abstract type carrying the floating-point operations the kernel uses
(`+`, `-`, `*`, `/`, `sqrt`, the constants 0 and 1, and conversion from the
int64 `norm_size`).  Every accumulation and arithmetic step of the kernel is
expressed with these operations, in the exact order the source performs them,
so theorems about the embedding are theorems about the expression structure of
the kernel for any floating-point semantics of the operations.  A concrete
instance on `Rat` (with an abstract `fsqrt`) is provided to evaluate the
embedding on concrete inputs.
-/

namespace LayerNorm

/-- Error statuses the kernel (and its surrounding validation) can return.
`invalidArgument` for a bad axis, `shapeMismatch` for scale/bias length
disagreement with `norm_size`. -/
inductive Status where
  | invalidArgument : Status
  | shapeMismatch : Status
deriving DecidableEq, Repr

/-- The floating-point operations on the storage type `T` used by the kernel:
`fadd`, `fsub`, `fmul`, `fdiv`, `fsqrt` model the C++ `+ - * /` and `sqrt` on
`T`, `fzero`/`fone` the literals `0`/`1`, and `fofNat` the implicit conversion
of the int64 `norm_size` to `T`. -/
class FloatT (T : Type) where
  fadd : T → T → T
  fsub : T → T → T
  fmul : T → T → T
  fdiv : T → T → T
  fsqrt : T → T
  fzero : T
  fone : T
  fofNat : Nat → T

open FloatT

/-- A concrete carrier for evaluating the embedding: rational arithmetic with
`fsqrt` left as the identity (the theorems never depend on what `fsqrt`
computes, only on where it is applied). -/
instance : FloatT Rat where
  fadd := fun a b => a + b
  fsub := fun a b => a - b
  fmul := fun a b => a * b
  fdiv := fun a b => a / b
  fsqrt := fun a => a
  fzero := 0
  fone := 1
  fofNat := fun n => (n : Rat)

variable {T : Type} [FloatT T]

/-- The single accumulation loop of the kernel (lines 86-92): starting from
`mean = 0, mean_square = 0`, for each `h` do `mean += p_input[h]` and
`mean_square += p_input[h] * p_input[h]`, in storage type `T`. -/
def accLoop (row : List T) : T × T :=
  row.foldl (fun p x => (fadd p.1 x, fadd p.2 (fmul x x))) (fzero, fzero)

/-- Left-fold sum in the storage type `T`: `Σ x_h` with no higher-precision
accumulator, in the order the kernel's loop visits the elements. -/
def sumT (row : List T) : T :=
  row.foldl fadd fzero

/-- Left-fold sum of squares in the storage type `T`: `Σ x_h²` with no
higher-precision accumulator, in the kernel's loop order. -/
def sumSqT (row : List T) : T :=
  row.foldl (fun a x => fadd a (fmul x x)) fzero

/-- Result of the per-row task body (lines 82-115): the `norm_size` output
elements, the value held by the local `mean` after line 94, and the value
`1 / mean_square` written to the inv-std-dev slot at line 114. -/
structure RowResult (T : Type) where
  out : List T
  mean : T
  invStdDev : T

/-- The per-row task body of `ComputeImpl` (lines 82-115), translated
step by step:
`mean`/`mean_square` accumulation loop, `mean = mean / norm_size`,
`mean_square = sqrt(mean_square/norm_size + epsilon)` when simplified else
`sqrt(mean_square/norm_size - mean*mean + epsilon)`, then the output loop with
its three branches (simplified / no bias / bias). -/
def computeRow (simplified : Bool) (epsilon : T) (scaleData : List T)
    (biasData : Option (List T)) (normSize : Nat) (input : List T) :
    RowResult T :=
  let acc := accLoop input
  let mean := fdiv acc.1 (fofNat normSize)
  let meanSquare :=
    if simplified then
      fsqrt (fadd (fdiv acc.2 (fofNat normSize)) epsilon)
    else
      fsqrt (fadd (fsub (fdiv acc.2 (fofNat normSize)) (fmul mean mean)) epsilon)
  let out := (List.range normSize).map (fun h =>
    let xh := input.getD h fzero
    let sh := scaleData.getD h fzero
    if simplified then
      fmul (fdiv xh meanSquare) sh
    else
      match biasData with
      | none => fmul (fdiv (fsub xh mean) meanSquare) sh
      | some b => fadd (fmul (fdiv (fsub xh mean) meanSquare) sh) (b.getD h fzero))
  { out := out, mean := mean, invStdDev := fdiv fone meanSquare }

/-- Modelled from the spec: `HandleNegativeAxis` (declared in
`core/providers/common.h`, which is not part of `src/`):
`resolved_axis = axis < 0 ? axis + rank : axis`, failing with
`InvalidArgument` exactly when the resolved value is outside `[0, rank]`. -/
def handleNegativeAxis (axis : Int) (rank : Nat) : Except Status Nat :=
  let resolved : Int := if axis < 0 then axis + rank else axis
  if 0 ≤ resolved ∧ resolved ≤ (rank : Int) then Except.ok resolved.toNat
  else Except.error Status.invalidArgument

/-- Modelled from the spec: `TensorShape::SizeToDimension` (the `TensorShape`
class is not part of `src/`): `norm_count` is the product of the dimensions
strictly before the resolved axis. -/
def sizeToDimension (dims : List Nat) (axis : Nat) : Nat :=
  (dims.take axis).prod

/-- Modelled from the spec: `TensorShape::SizeFromDimension` (the
`TensorShape` class is not part of `src/`): `norm_size` is the product of the
dimensions at and after the resolved axis. -/
def sizeFromDimension (dims : List Nat) (axis : Nat) : Nat :=
  (dims.drop axis).prod

/-- The shape loop of lines 39-47: `mean_inv_std_dev_dim[i] = dims[i]` for
`i < axis` and `1` otherwise. -/
def statsShapeOf (dims : List Nat) (axis : Nat) : List Nat :=
  (List.range dims.length).map (fun i => if i < axis then dims.getD i 1 else 1)

/-- Row `i` of the flattened input: `p_input = X_data + task_idx * norm_size`
read for `norm_size` elements (lines 83, 89-91). -/
def rowOf (xData : List T) (normSize : Nat) (i : Nat) : List T :=
  (xData.drop (i * normSize)).take normSize

/-- The output-slot bookkeeping of lines 55-71: `output_index` starts at 1;
in non-simplified mode the mean tensor takes it and it is incremented; the
inv-std-dev tensor takes the final `output_index`.  Returns
(mean slot if any, inv-std-dev slot). -/
def outputIndices (simplified : Bool) : Option Nat × Nat :=
  let outputIndex := 1
  if simplified then (none, outputIndex)
  else (some outputIndex, outputIndex + 1)

/-- Everything `ComputeImpl` produces on success: the shape passed to
`Output(0, ...)` for `Y`, the shape passed for the statistic outputs, the rows
of `Y`, the contents of the buffer behind `mean_data` (absent in simplified
mode, where `mean_data` stays null), the contents of the buffer behind
`inv_std_dev_data` (always present), and the contents of the caller-visible
optional tensor outputs (present only when the caller requested that slot). -/
structure ComputeResult (T : Type) where
  yShape : List Nat
  statsShape : List Nat
  y : List (List T)
  meanVals : Option (List T)
  invStdDevVals : List T
  meanOutput : Option (List T)
  invStdDevOutput : Option (List T)

/-- `LayerNormImpl::ComputeImpl::operator()` (lines 22-119) as a function of
its inputs.  `wantMean` / `wantInv` model whether the caller requested the
optional mean / inv-std-dev tensor outputs (`p_ctx->Output(i, shape)` being
non-null); when a statistic output is not requested its values go to an
allocator-owned scratch buffer, which is modelled by the values being present
in `meanVals` / `invStdDevVals` but absent from `meanOutput` /
`invStdDevOutput`.  Line 29: `bias_data` is null when `simplified` or no bias
tensor is given. -/
def computeImpl (simplified : Bool) (origAxis : Int) (epsilon : T)
    (xShape : List Nat) (xData scaleData : List T)
    (biasData : Option (List T)) (wantMean wantInv : Bool) :
    Except Status (ComputeResult T) :=
  let biasUsed := if simplified then none else biasData
  match handleNegativeAxis origAxis xShape.length with
  | Except.error e => Except.error e
  | Except.ok axis =>
    let normCount := sizeToDimension xShape axis
    let normSize := sizeFromDimension xShape axis
    let rowRes := fun i =>
      computeRow simplified epsilon scaleData biasUsed normSize
        (rowOf xData normSize i)
    let meanVals :=
      if simplified then none
      else some ((List.range normCount).map (fun i => (rowRes i).mean))
    let invVals := (List.range normCount).map (fun i => (rowRes i).invStdDev)
    Except.ok
      { yShape := xShape
        statsShape := statsShapeOf xShape axis
        y := (List.range normCount).map (fun i => (rowRes i).out)
        meanVals := meanVals
        invStdDevVals := invVals
        meanOutput := if simplified then none else if wantMean then meanVals else none
        invStdDevOutput := if wantInv then some invVals else none }

/-- Projection of a kernel call's result, with an empty result on error. -/
def resOf (e : Except Status (ComputeResult T)) : ComputeResult T :=
  match e with
  | Except.ok r => r
  | Except.error _ => { yShape := [], statsShape := [], y := [], meanVals := none,
                        invStdDevVals := [], meanOutput := none, invStdDevOutput := none }

/-- Modelled from the spec: the shape validation surrounding the kernel (not
part of `src/`, where only the raw data pointers are read): `Compute` fails
with `ShapeMismatch` if the scale length, or the length of a provided bias,
disagrees with `norm_size`; otherwise it runs `ComputeImpl`. -/
def compute (simplified : Bool) (origAxis : Int) (epsilon : T)
    (xShape : List Nat) (xData scaleData : List T)
    (biasData : Option (List T)) (wantMean wantInv : Bool) :
    Except Status (ComputeResult T) :=
  match handleNegativeAxis origAxis xShape.length with
  | Except.error e => Except.error e
  | Except.ok axis =>
    let normSize := sizeFromDimension xShape axis
    if scaleData.length ≠ normSize then Except.error Status.shapeMismatch
    else match biasData with
      | some b =>
        if b.length ≠ normSize then Except.error Status.shapeMismatch
        else computeImpl simplified origAxis epsilon xShape xData scaleData biasData wantMean wantInv
      | none => computeImpl simplified origAxis epsilon xShape xData scaleData biasData wantMean wantInv

/-- The buffers visible to a `Compute` call: the three input buffers (read
through `Data<T>()`, i.e. const, lines 27-29) and the three output buffers the
kernel writes through `Y_data`, `mean_data`, `inv_std_dev_data`. -/
structure Buffers (T : Type) where
  x : List T
  scale : List T
  bias : Option (List T)
  y : List (List T)
  meanBuf : Option (List T)
  invBuf : List T

/-- `Compute` acting on the whole buffer state: the kernel writes only through
`Y_data`, `mean_data` and `inv_std_dev_data` (lines 84, 103-107, 112, 114), so
only the `y`, `meanBuf` and `invBuf` fields are replaced. -/
def computeOnBuffers (simplified : Bool) (origAxis : Int) (epsilon : T)
    (xShape : List Nat) (wantMean wantInv : Bool) (st : Buffers T) :
    Except Status (Buffers T) :=
  match computeImpl simplified origAxis epsilon xShape st.x st.scale st.bias
      wantMean wantInv with
  | Except.error e => Except.error e
  | Except.ok r =>
    Except.ok { st with y := r.y, meanBuf := r.meanVals, invBuf := r.invStdDevVals }

/-- State of the per-row output slots during the parallel loop: row `i` of `Y`,
the mean slot `mean_data[i]` and the inv-std-dev slot `inv_std_dev_data[i]`,
each `none` until some task has written it. -/
structure SchedState (T : Type) where
  yRows : Nat → Option (List T)
  meanSlots : Nat → Option T
  invSlots : Nat → Option T

/-- The empty slot state before any task has run. -/
def initState (T : Type) : SchedState T :=
  { yRows := fun _ => none, meanSlots := fun _ => none, invSlots := fun _ => none }

/-- One task of the parallel-for body (lines 82-115) executed on row `i`: it
writes row `i` of `Y`, the mean slot `i` (only when `mean_data` is non-null,
i.e. in non-simplified mode) and the inv-std-dev slot `i`, and touches no
other slot. -/
def runTask (simplified : Bool) (epsilon : T) (scaleData : List T)
    (biasData : Option (List T)) (normSize : Nat) (xData : List T)
    (st : SchedState T) (i : Nat) : SchedState T :=
  let r := computeRow simplified epsilon scaleData biasData normSize
    (rowOf xData normSize i)
  { yRows := fun j => if j = i then some r.out else st.yRows j
    meanSlots := fun j =>
      if simplified then st.meanSlots j
      else if j = i then some r.mean else st.meanSlots j
    invSlots := fun j => if j = i then some r.invStdDev else st.invSlots j }

/-- Modelled from the spec: `concurrency::ThreadPool::TryBatchParallelFor`
(`core/platform/threadpool.h`, not part of `src/`) runs the `norm_count`
per-row tasks, each exactly once, in some scheduler-chosen order; a schedule
is the list of row indices in execution order, and running it folds the task
body over that list. -/
def runSchedule (simplified : Bool) (epsilon : T) (scaleData : List T)
    (biasData : Option (List T)) (normSize : Nat) (xData : List T)
    (sched : List Nat) : SchedState T :=
  sched.foldl (runTask simplified epsilon scaleData biasData normSize xData)
    (initState T)

/-! ### Helper lemmas -/

theorem getD_range_map {α : Type _} (n i : Nat) (f : Nat → α) (d : α) (h : i < n) :
    ((List.range n).map f).getD i d = f i := by
  rw [List.getD_eq_getElem?_getD, List.getElem?_map, List.getElem?_range h]
  rfl

theorem getD_congr_default {α : Type _} (l : List α) (i : Nat) (a b : α)
    (h : i < l.length) : l.getD i a = l.getD i b := by
  rw [List.getD_eq_getElem?_getD, List.getD_eq_getElem?_getD,
    List.getElem?_eq_getElem h]
  rfl

theorem foldl_pair_split (l : List T) (a b : T) :
    l.foldl (fun p x => (fadd p.1 x, fadd p.2 (fmul x x))) (a, b)
      = (l.foldl fadd a, l.foldl (fun c x => fadd c (fmul x x)) b) := by
  induction l generalizing a b with
  | nil => rfl
  | cons x xs ih => simpa using ih (fadd a x) (fadd b (fmul x x))

theorem accLoop_eq (row : List T) : accLoop row = (sumT row, sumSqT row) :=
  foldl_pair_split row fzero fzero

/-! ### Claim theorems -/

/-- Claim C1: in non-simplified mode, for every row `i` of `X` the kernel
writes `y_h = (x_h - mean) / scale_factor * scale_h`, with `+ bias_h` exactly
when a bias tensor is provided, where `sum = Σ x_h` and `sum_sq = Σ x_h²` are
left-fold accumulations over the row's `norm_size` elements in the storage
type `T` (no higher-precision accumulator), `mean = sum / norm_size`, and
`scale_factor = sqrt(sum_sq/norm_size - mean*mean + epsilon)`. -/
theorem C1_full_mode_formula (origAxis : Int) (epsilon : T)
    (xShape : List Nat) (xData scaleData : List T) (biasData : Option (List T))
    (wantMean wantInv : Bool) (axis i h : Nat)
    (haxis : handleNegativeAxis origAxis xShape.length = Except.ok axis)
    (hi : i < sizeToDimension xShape axis)
    (hh : h < sizeFromDimension xShape axis) :
    ((resOf (computeImpl false origAxis epsilon xShape xData scaleData biasData
        wantMean wantInv)).y.getD i []).getD h fzero
      =
    (let normSize := sizeFromDimension xShape axis
     let row := rowOf xData normSize i
     let mean := fdiv (sumT row) (fofNat normSize)
     let scaleFactor := fsqrt (fadd (fsub (fdiv (sumSqT row) (fofNat normSize))
       (fmul mean mean)) epsilon)
     let xh := row.getD h fzero
     let sh := scaleData.getD h fzero
     match biasData with
     | none => fmul (fdiv (fsub xh mean) scaleFactor) sh
     | some b => fadd (fmul (fdiv (fsub xh mean) scaleFactor) sh) (b.getD h fzero)) := by
  simp only [computeImpl, haxis, resOf]
  rw [getD_range_map _ _ _ _ hi]
  simp only [computeRow, accLoop_eq]
  rw [getD_range_map _ _ _ _ hh]
  cases biasData <;> simp

/-- Witness for C1 at the spec's concrete scenario: `X = [[1,2,3,4]]` (shape
`[1,4]`), `axis = 1`, unit scale, zero bias, `epsilon = 1e-5`, row 0,
element 2. -/
theorem C1_full_mode_formula_witness :
    handleNegativeAxis 1 2 = Except.ok 1 ∧
    (0 : Nat) < sizeToDimension [1, 4] 1 ∧
    (2 : Nat) < sizeFromDimension [1, 4] 1 ∧
    ((resOf (computeImpl false 1 ((1 : Rat)/100000) [1, 4] [1, 2, 3, 4]
        [1, 1, 1, 1] (some [0, 0, 0, 0]) true true)).y.getD 0 []).getD 2 fzero
      =
    (let normSize := sizeFromDimension [1, 4] 1
     let row := rowOf ([1, 2, 3, 4] : List Rat) normSize 0
     let mean := fdiv (sumT row) (fofNat normSize)
     let scaleFactor := fsqrt (fadd (fsub (fdiv (sumSqT row) (fofNat normSize))
       (fmul mean mean)) ((1 : Rat)/100000))
     let xh := row.getD 2 fzero
     let sh := ([1, 1, 1, 1] : List Rat).getD 2 fzero
     match some ([0, 0, 0, 0] : List Rat) with
     | none => fmul (fdiv (fsub xh mean) scaleFactor) sh
     | some b => fadd (fmul (fdiv (fsub xh mean) scaleFactor) sh) (b.getD 2 fzero)) :=
  ⟨rfl, by decide, by decide,
    C1_full_mode_formula 1 ((1 : Rat)/100000) [1, 4] [1, 2, 3, 4] [1, 1, 1, 1]
      (some [0, 0, 0, 0]) true true 1 0 2 rfl (by decide) (by decide)⟩

/-- Claim C2: in simplified (RMS-norm) mode the kernel writes
`y_h = x_h / sqrt(sum_sq/norm_size + epsilon) * scale_h` with no mean
subtraction, the whole result is independent of any provided bias tensor, the
per-row mean buffer is never populated (`mean_data` stays null), and a
caller's request for the mean output is treated as absent (the mean output is
`none` whatever `wantMean` is). -/
theorem C2_simplified_mode (origAxis : Int) (epsilon : T)
    (xShape : List Nat) (xData scaleData : List T) (biasData : Option (List T))
    (wantMean wantInv : Bool) (axis i h : Nat)
    (haxis : handleNegativeAxis origAxis xShape.length = Except.ok axis)
    (hi : i < sizeToDimension xShape axis)
    (hh : h < sizeFromDimension xShape axis) :
    (((resOf (computeImpl true origAxis epsilon xShape xData scaleData biasData
        wantMean wantInv)).y.getD i []).getD h fzero
      =
    (let normSize := sizeFromDimension xShape axis
     let row := rowOf xData normSize i
     let scaleFactor := fsqrt (fadd (fdiv (sumSqT row) (fofNat normSize)) epsilon)
     fmul (fdiv (row.getD h fzero) scaleFactor) (scaleData.getD h fzero)))
    ∧ computeImpl true origAxis epsilon xShape xData scaleData biasData wantMean wantInv
      = computeImpl true origAxis epsilon xShape xData scaleData none wantMean wantInv
    ∧ (resOf (computeImpl true origAxis epsilon xShape xData scaleData biasData
        wantMean wantInv)).meanVals = none
    ∧ (resOf (computeImpl true origAxis epsilon xShape xData scaleData biasData
        wantMean wantInv)).meanOutput = none := by
  refine ⟨?_, ?_, ?_, ?_⟩
  · simp only [computeImpl, haxis, resOf]
    rw [getD_range_map _ _ _ _ hi]
    simp only [computeRow, accLoop_eq]
    rw [getD_range_map _ _ _ _ hh]
    simp
  · simp [computeImpl, haxis]
  · simp [computeImpl, haxis, resOf]
  · simp [computeImpl, haxis, resOf]

/-- Witness for C2 at the spec's simplified scenario: same `X`, `axis = 1`,
row 0, element 1, with a bias tensor provided (and ignored). -/
theorem C2_simplified_mode_witness :
    handleNegativeAxis 1 2 = Except.ok 1 ∧
    (0 : Nat) < sizeToDimension [1, 4] 1 ∧
    (1 : Nat) < sizeFromDimension [1, 4] 1 ∧
    ((((resOf (computeImpl true 1 ((1 : Rat)/100000) [1, 4] [1, 2, 3, 4]
        [1, 1, 1, 1] (some [9, 9, 9, 9]) true true)).y.getD 0 []).getD 1 fzero
      =
    (let normSize := sizeFromDimension [1, 4] 1
     let row := rowOf ([1, 2, 3, 4] : List Rat) normSize 0
     let scaleFactor := fsqrt (fadd (fdiv (sumSqT row) (fofNat normSize)) ((1 : Rat)/100000))
     fmul (fdiv (row.getD 1 fzero) scaleFactor) (([1, 1, 1, 1] : List Rat).getD 1 fzero)))
    ∧ computeImpl true 1 ((1 : Rat)/100000) [1, 4] [1, 2, 3, 4] [1, 1, 1, 1]
        (some [9, 9, 9, 9]) true true
      = computeImpl true 1 ((1 : Rat)/100000) [1, 4] [1, 2, 3, 4] [1, 1, 1, 1]
        none true true
    ∧ (resOf (computeImpl true 1 ((1 : Rat)/100000) [1, 4] [1, 2, 3, 4]
        [1, 1, 1, 1] (some [9, 9, 9, 9]) true true)).meanVals = none
    ∧ (resOf (computeImpl true 1 ((1 : Rat)/100000) [1, 4] [1, 2, 3, 4]
        [1, 1, 1, 1] (some [9, 9, 9, 9]) true true)).meanOutput = none) :=
  ⟨rfl, by decide, by decide,
    C2_simplified_mode 1 ((1 : Rat)/100000) [1, 4] [1, 2, 3, 4] [1, 1, 1, 1]
      (some [9, 9, 9, 9]) true true 1 0 1 rfl (by decide) (by decide)⟩

/-- Claim C3: for every row `i` and in both modes, the kernel writes
`1 / scale_factor` into the inv-std-dev slot for that row —
`1/sqrt(sum_sq/norm_size - mean² + epsilon)` in full mode and
`1/sqrt(sum_sq/norm_size + epsilon)` in simplified mode — and this buffer is
populated for every row on every successful call, regardless of mode and of
whether the caller requested the output. -/
theorem C3_inv_std_dev_always (simplified : Bool) (origAxis : Int) (epsilon : T)
    (xShape : List Nat) (xData scaleData : List T) (biasData : Option (List T))
    (wantMean wantInv : Bool) (axis : Nat)
    (haxis : handleNegativeAxis origAxis xShape.length = Except.ok axis) :
    (resOf (computeImpl simplified origAxis epsilon xShape xData scaleData biasData
        wantMean wantInv)).invStdDevVals.length = sizeToDimension xShape axis
    ∧ ∀ i, i < sizeToDimension xShape axis →
      (resOf (computeImpl simplified origAxis epsilon xShape xData scaleData biasData
          wantMean wantInv)).invStdDevVals.getD i fzero
        =
      (let normSize := sizeFromDimension xShape axis
       let row := rowOf xData normSize i
       let mean := fdiv (sumT row) (fofNat normSize)
       let scaleFactor :=
         if simplified then fsqrt (fadd (fdiv (sumSqT row) (fofNat normSize)) epsilon)
         else fsqrt (fadd (fsub (fdiv (sumSqT row) (fofNat normSize))
           (fmul mean mean)) epsilon)
       fdiv fone scaleFactor) := by
  constructor
  · simp [computeImpl, haxis, resOf]
  · intro i hi
    simp only [computeImpl, haxis, resOf]
    rw [getD_range_map _ _ _ _ hi]
    simp only [computeRow, accLoop_eq]

/-- Witness for C3 in full mode on a rank-2 input of two rows. -/
theorem C3_inv_std_dev_always_witness :
    handleNegativeAxis (-1) 2 = Except.ok 1 ∧
    ((resOf (computeImpl false (-1) ((1 : Rat)/100000) [2, 2] [1, 2, 3, 4]
        [1, 1] none false false)).invStdDevVals.length = sizeToDimension [2, 2] 1
    ∧ ∀ i, i < sizeToDimension [2, 2] 1 →
      (resOf (computeImpl false (-1) ((1 : Rat)/100000) [2, 2] [1, 2, 3, 4]
          [1, 1] none false false)).invStdDevVals.getD i fzero
        =
      (let normSize := sizeFromDimension [2, 2] 1
       let row := rowOf ([1, 2, 3, 4] : List Rat) normSize i
       let mean := fdiv (sumT row) (fofNat normSize)
       let scaleFactor :=
         if false then fsqrt (fadd (fdiv (sumSqT row) (fofNat normSize)) ((1 : Rat)/100000))
         else fsqrt (fadd (fsub (fdiv (sumSqT row) (fofNat normSize))
           (fmul mean mean)) ((1 : Rat)/100000))
       fdiv fone scaleFactor)) :=
  ⟨rfl,
    C3_inv_std_dev_always false (-1) ((1 : Rat)/100000) [2, 2] [1, 2, 3, 4]
      [1, 1] none false false 1 rfl⟩

/-- Under a successful axis resolution, the kernel body itself always
succeeds (its only failure source is the axis resolution). -/
theorem computeImpl_eq_ok (simplified : Bool) (origAxis : Int) (epsilon : T)
    (xShape : List Nat) (xData scaleData : List T) (biasData : Option (List T))
    (wantMean wantInv : Bool) (axis : Nat)
    (haxis : handleNegativeAxis origAxis xShape.length = Except.ok axis) :
    computeImpl simplified origAxis epsilon xShape xData scaleData biasData
        wantMean wantInv
      = Except.ok (resOf (computeImpl simplified origAxis epsilon xShape xData
        scaleData biasData wantMean wantInv)) := by
  simp [computeImpl, haxis, resOf]

/-- Claim C4: when the scale length, or the length of a provided bias,
differs from `norm_size`, `Compute` fails with `ShapeMismatch` (and exactly
then); a successful call guarantees both lengths equal `norm_size`, so no
silent truncation or out-of-bounds indexing can occur. -/
theorem C4_shape_mismatch (simplified : Bool) (origAxis : Int) (epsilon : T)
    (xShape : List Nat) (xData scaleData : List T) (biasData : Option (List T))
    (wantMean wantInv : Bool) (axis : Nat)
    (haxis : handleNegativeAxis origAxis xShape.length = Except.ok axis) :
    (compute simplified origAxis epsilon xShape xData scaleData biasData wantMean wantInv
        = Except.error Status.shapeMismatch
      ↔ (scaleData.length ≠ sizeFromDimension xShape axis
         ∨ ∃ b, biasData = some b ∧ b.length ≠ sizeFromDimension xShape axis))
    ∧ ∀ res, compute simplified origAxis epsilon xShape xData scaleData biasData
        wantMean wantInv = Except.ok res →
        scaleData.length = sizeFromDimension xShape axis
        ∧ ∀ b, biasData = some b → b.length = sizeFromDimension xShape axis := by
  obtain ⟨R, hok⟩ : ∃ r, computeImpl simplified origAxis epsilon xShape xData
      scaleData biasData wantMean wantInv = Except.ok r :=
    ⟨_, computeImpl_eq_ok simplified origAxis epsilon xShape xData scaleData
      biasData wantMean wantInv axis haxis⟩
  constructor
  · constructor
    · intro herr
      by_cases hs : scaleData.length = sizeFromDimension xShape axis
      · right
        cases biasData with
        | none => simp [compute, haxis, hs, hok] at herr
        | some b =>
          by_cases hbl : b.length = sizeFromDimension xShape axis
          · simp [compute, haxis, hs, hbl, hok] at herr
          · exact ⟨b, rfl, hbl⟩
      · exact Or.inl hs
    · intro hcond
      rcases hcond with hs | ⟨b, hb, hbl⟩
      · simp [compute, haxis, hs]
      · subst hb
        by_cases hs : scaleData.length = sizeFromDimension xShape axis
        · simp [compute, haxis, hs, hbl]
        · simp [compute, haxis, hs]
  · intro res hres
    by_cases hs : scaleData.length = sizeFromDimension xShape axis
    · refine ⟨hs, ?_⟩
      intro b hb
      subst hb
      by_contra hbl
      simp [compute, haxis, hs, hbl] at hres
    · simp [compute, haxis, hs] at hres

/-- Witness for C4: scale of length 3 against a row size of 4 (input shape
`[1,4]`, axis 1) fails with `ShapeMismatch`. -/
theorem C4_shape_mismatch_witness :
    handleNegativeAxis 1 2 = Except.ok 1 ∧
    ((compute false 1 ((1 : Rat)/100000) [1, 4] [1, 2, 3, 4] [1, 1, 1] none true true
        = Except.error Status.shapeMismatch
      ↔ (([1, 1, 1] : List Rat).length ≠ sizeFromDimension [1, 4] 1
         ∨ ∃ b, (none : Option (List Rat)) = some b
             ∧ b.length ≠ sizeFromDimension [1, 4] 1))
    ∧ ∀ res, compute false 1 ((1 : Rat)/100000) [1, 4] [1, 2, 3, 4] [1, 1, 1]
        none true true = Except.ok res →
        ([1, 1, 1] : List Rat).length = sizeFromDimension [1, 4] 1
        ∧ ∀ b, (none : Option (List Rat)) = some b
            → b.length = sizeFromDimension [1, 4] 1) :=
  ⟨rfl, C4_shape_mismatch false 1 ((1 : Rat)/100000) [1, 4] [1, 2, 3, 4]
    [1, 1, 1] none true true 1 rfl⟩

/-- Claim C5: the construction-time axis is resolved against the input's rank
at call time as `axis + rank` when negative and `axis` otherwise, failing with
`InvalidArgument` exactly when the resolved value is outside `[0, rank]`; in
particular `axis = -1` on a rank-3 input behaves identically to `axis = 2`. -/
theorem C5_axis_resolution (origAxis : Int) (rank : Nat) (simplified : Bool)
    (epsilon : T) (xShape : List Nat) (xData scaleData : List T)
    (biasData : Option (List T)) (wantMean wantInv : Bool) :
    ((0 ≤ (if origAxis < 0 then origAxis + rank else origAxis)
       ∧ (if origAxis < 0 then origAxis + rank else origAxis) ≤ (rank : Int)) →
      handleNegativeAxis origAxis rank
        = Except.ok (if origAxis < 0 then origAxis + rank else origAxis).toNat)
    ∧ (((if origAxis < 0 then origAxis + rank else origAxis) < 0
        ∨ (rank : Int) < (if origAxis < 0 then origAxis + rank else origAxis)) →
      handleNegativeAxis origAxis rank = Except.error Status.invalidArgument)
    ∧ (xShape.length = 3 →
      computeImpl simplified (-1) epsilon xShape xData scaleData biasData wantMean wantInv
        = computeImpl simplified 2 epsilon xShape xData scaleData biasData wantMean wantInv) := by
  refine ⟨?_, ?_, ?_⟩
  · intro h
    simp only [handleNegativeAxis]
    rw [if_pos h]
  · intro h
    have hneg : ¬(0 ≤ (if origAxis < 0 then origAxis + rank else origAxis)
        ∧ (if origAxis < 0 then origAxis + rank else origAxis) ≤ (rank : Int)) := by
      rcases h with h | h <;> intro hc <;> omega
    simp only [handleNegativeAxis]
    rw [if_neg hneg]
  · intro h3
    have e1 : handleNegativeAxis (-1) xShape.length = Except.ok 2 := by rw [h3]; rfl
    have e2 : handleNegativeAxis 2 xShape.length = Except.ok 2 := by rw [h3]; rfl
    simp [computeImpl, e1, e2]

/-- Witness for C5: `axis = -1` and `axis = 2` on rank 3 both resolve to 2,
`axis = 4` on rank 3 fails with `InvalidArgument`, and the kernel behaves
identically under `axis = -1` and `axis = 2` on a rank-3 input. -/
theorem C5_axis_resolution_witness :
    handleNegativeAxis (-1) 3 = Except.ok 2 ∧
    handleNegativeAxis 2 3 = Except.ok 2 ∧
    handleNegativeAxis 4 3 = Except.error Status.invalidArgument ∧
    computeImpl false (-1) ((1 : Rat)/100000) [2, 1, 2] [1, 2, 3, 4] [1, 1]
        none true true
      = computeImpl false 2 ((1 : Rat)/100000) [2, 1, 2] [1, 2, 3, 4] [1, 1]
        none true true :=
  ⟨(C5_axis_resolution (-1) 3 false (1 : Rat) [] [] [] none false false).1 (by decide),
   (C5_axis_resolution 2 3 false (1 : Rat) [] [] [] none false false).1 (by decide),
   (C5_axis_resolution 4 3 false (1 : Rat) [] [] [] none false false).2.1 (by decide),
   (C5_axis_resolution (-1) 3 false ((1 : Rat)/100000) [2, 1, 2] [1, 2, 3, 4]
     [1, 1] none true true).2.2 rfl⟩

/-- Claim C6: the values written into `Y` (and the computed mean and
inv-std-dev values) are identical whether or not the caller requests the
optional outputs; the request flags only decide whether the statistics land in
a caller-visible output or in scratch. -/
theorem C6_y_independent_of_requests (simplified : Bool) (origAxis : Int)
    (epsilon : T) (xShape : List Nat) (xData scaleData : List T)
    (biasData : Option (List T)) (wantMean wantInv wantMean2 wantInv2 : Bool) :
    (resOf (computeImpl simplified origAxis epsilon xShape xData scaleData biasData
        wantMean wantInv)).y
      = (resOf (computeImpl simplified origAxis epsilon xShape xData scaleData biasData
        wantMean2 wantInv2)).y
    ∧ (resOf (computeImpl simplified origAxis epsilon xShape xData scaleData biasData
        wantMean wantInv)).meanVals
      = (resOf (computeImpl simplified origAxis epsilon xShape xData scaleData biasData
        wantMean2 wantInv2)).meanVals
    ∧ (resOf (computeImpl simplified origAxis epsilon xShape xData scaleData biasData
        wantMean wantInv)).invStdDevVals
      = (resOf (computeImpl simplified origAxis epsilon xShape xData scaleData biasData
        wantMean2 wantInv2)).invStdDevVals := by
  cases hax : handleNegativeAxis origAxis xShape.length <;>
    simp [computeImpl, hax, resOf]

/-- Claim C7: on success, `Y` is created with exactly `X`'s shape (and, by the
typing of the embedding, `X`'s element type `T`), its rows partition it into
`norm_count` rows of `norm_size` elements with
`norm_count * norm_size = prod(shape)`, and the statistic outputs are created
with `X`'s shape in which every dimension at or after the resolved axis is
replaced by 1. -/
theorem C7_output_shapes (simplified : Bool) (origAxis : Int) (epsilon : T)
    (xShape : List Nat) (xData scaleData : List T) (biasData : Option (List T))
    (wantMean wantInv : Bool) (axis : Nat)
    (haxis : handleNegativeAxis origAxis xShape.length = Except.ok axis) :
    (resOf (computeImpl simplified origAxis epsilon xShape xData scaleData biasData
        wantMean wantInv)).yShape = xShape
    ∧ (resOf (computeImpl simplified origAxis epsilon xShape xData scaleData biasData
        wantMean wantInv)).statsShape.length = xShape.length
    ∧ (∀ j, j < xShape.length →
        (resOf (computeImpl simplified origAxis epsilon xShape xData scaleData biasData
          wantMean wantInv)).statsShape.getD j 0
          = if j < axis then xShape.getD j 0 else 1)
    ∧ (resOf (computeImpl simplified origAxis epsilon xShape xData scaleData biasData
        wantMean wantInv)).y.length = sizeToDimension xShape axis
    ∧ (∀ r, r ∈ (resOf (computeImpl simplified origAxis epsilon xShape xData scaleData
        biasData wantMean wantInv)).y → r.length = sizeFromDimension xShape axis)
    ∧ sizeToDimension xShape axis * sizeFromDimension xShape axis = xShape.prod := by
  refine ⟨?_, ?_, ?_, ?_, ?_, ?_⟩
  · simp [computeImpl, haxis, resOf]
  · simp [computeImpl, haxis, resOf, statsShapeOf]
  · intro j hj
    simp only [computeImpl, haxis, resOf, statsShapeOf]
    rw [getD_range_map _ _ _ _ hj]
    by_cases hja : j < axis
    · simp only [hja, if_pos]
      exact getD_congr_default _ _ _ _ hj
    · simp [hja]
  · simp [computeImpl, haxis, resOf]
  · intro r hr
    simp only [computeImpl, haxis, resOf] at hr
    rcases List.mem_map.mp hr with ⟨i, _, rfl⟩
    simp [computeRow]
  · exact List.prod_take_mul_prod_drop xShape axis

/-- Witness for C7 on a rank-3 input of shape `[2,1,2]` with `axis = -1`
resolved to 2. -/
theorem C7_output_shapes_witness :
    handleNegativeAxis (-1) 3 = Except.ok 2 ∧
    ((resOf (computeImpl false (-1) ((1 : Rat)/100000) [2, 1, 2] [1, 2, 3, 4]
        [1, 1] none true true)).yShape = [2, 1, 2]
    ∧ (resOf (computeImpl false (-1) ((1 : Rat)/100000) [2, 1, 2] [1, 2, 3, 4]
        [1, 1] none true true)).statsShape.length = ([2, 1, 2] : List Nat).length
    ∧ (∀ j, j < ([2, 1, 2] : List Nat).length →
        (resOf (computeImpl false (-1) ((1 : Rat)/100000) [2, 1, 2] [1, 2, 3, 4]
          [1, 1] none true true)).statsShape.getD j 0
          = if j < 2 then ([2, 1, 2] : List Nat).getD j 0 else 1)
    ∧ (resOf (computeImpl false (-1) ((1 : Rat)/100000) [2, 1, 2] [1, 2, 3, 4]
        [1, 1] none true true)).y.length = sizeToDimension [2, 1, 2] 2
    ∧ (∀ r, r ∈ (resOf (computeImpl false (-1) ((1 : Rat)/100000) [2, 1, 2]
        [1, 2, 3, 4] [1, 1] none true true)).y
        → r.length = sizeFromDimension [2, 1, 2] 2)
    ∧ sizeToDimension [2, 1, 2] 2 * sizeFromDimension [2, 1, 2] 2
        = ([2, 1, 2] : List Nat).prod) :=
  ⟨rfl, C7_output_shapes false (-1) ((1 : Rat)/100000) [2, 1, 2] [1, 2, 3, 4]
    [1, 1] none true true 2 rfl⟩

/-- Claim C8: `Compute` never mutates its inputs: a call replaces only the
output buffers `Y`, `mean` and `inv_std_dev`, leaving the contents of `X`,
`scale` and `bias` unchanged. -/
theorem C8_no_input_mutation (simplified : Bool) (origAxis : Int) (epsilon : T)
    (xShape : List Nat) (wantMean wantInv : Bool) (st st2 : Buffers T)
    (hrun : computeOnBuffers simplified origAxis epsilon xShape wantMean wantInv st
      = Except.ok st2) :
    st2.x = st.x ∧ st2.scale = st.scale ∧ st2.bias = st.bias := by
  unfold computeOnBuffers at hrun
  cases hax : computeImpl simplified origAxis epsilon xShape st.x st.scale st.bias
      wantMean wantInv with
  | error e => rw [hax] at hrun; cases hrun
  | ok r =>
    rw [hax] at hrun
    cases hrun
    exact ⟨rfl, rfl, rfl⟩

/-- Witness for C8 on a concrete rank-2 call: the successful call leaves the
`x`, `scale` and `bias` buffers untouched. -/
theorem C8_no_input_mutation_witness :
    (let st : Buffers Rat :=
      { x := [1, 2, 3, 4], scale := [1, 1], bias := some [5, 6],
        y := [], meanBuf := none, invBuf := [] }
     let r : ComputeResult Rat :=
      resOf (computeImpl false 1 ((1 : Rat)/100000) [2, 2] [1, 2, 3, 4]
        [1, 1] (some [5, 6]) true true)
     let st2 : Buffers Rat :=
      { st with y := r.y, meanBuf := r.meanVals, invBuf := r.invStdDevVals }
     computeOnBuffers false 1 ((1 : Rat)/100000) [2, 2] true true st = Except.ok st2
     ∧ (st2.x = st.x ∧ st2.scale = st.scale ∧ st2.bias = st.bias)) := by
  exact ⟨rfl,
    C8_no_input_mutation false 1 ((1 : Rat)/100000) [2, 2] true true _ _ rfl⟩

/-- Running a list of per-row tasks from any starting slot state: slot `j`
holds row `j`'s result exactly when `j` was scheduled (mean slots only in
non-simplified mode), and is otherwise untouched. -/
theorem runTasks_slots (simplified : Bool) (epsilon : T) (scaleData : List T)
    (biasData : Option (List T)) (normSize : Nat) (xData : List T)
    (sched : List Nat) (st : SchedState T) (j : Nat) :
    (sched.foldl (runTask simplified epsilon scaleData biasData normSize xData) st).yRows j
      = (if j ∈ sched then
          some (computeRow simplified epsilon scaleData biasData normSize
            (rowOf xData normSize j)).out
         else st.yRows j)
    ∧ (sched.foldl (runTask simplified epsilon scaleData biasData normSize xData) st).meanSlots j
      = (if simplified = false ∧ j ∈ sched then
          some (computeRow simplified epsilon scaleData biasData normSize
            (rowOf xData normSize j)).mean
         else st.meanSlots j)
    ∧ (sched.foldl (runTask simplified epsilon scaleData biasData normSize xData) st).invSlots j
      = (if j ∈ sched then
          some (computeRow simplified epsilon scaleData biasData normSize
            (rowOf xData normSize j)).invStdDev
         else st.invSlots j) := by
  induction sched generalizing st with
  | nil => simp
  | cons i rest ih =>
    rcases ih (runTask simplified epsilon scaleData biasData normSize xData st i)
      with ⟨h1, h2, h3⟩
    refine ⟨?_, ?_, ?_⟩
    · rw [List.foldl_cons, h1]
      simp only [runTask, List.mem_cons]
      by_cases hr : j ∈ rest <;> by_cases hji : j = i <;> simp [hr, hji]
    · rw [List.foldl_cons, h2]
      simp only [runTask, List.mem_cons]
      cases simplified <;> by_cases hr : j ∈ rest <;> by_cases hji : j = i <;>
        simp [hr, hji]
    · rw [List.foldl_cons, h3]
      simp only [runTask, List.mem_cons]
      by_cases hr : j ∈ rest <;> by_cases hji : j = i <;> simp [hr, hji]

/-- Claim C9: the kernel's result is independent of thread scheduling — any
schedule that runs each of the `norm_count` per-row tasks exactly once (any
permutation of the sequential order) leaves every `Y`-row, mean and
inv-std-dev slot identical to the sequential run, and each scheduled row slot
holds exactly that row's computed result. -/
theorem C9_schedule_independence (simplified : Bool) (epsilon : T)
    (scaleData : List T) (biasData : Option (List T)) (normSize : Nat)
    (xData : List T) (normCount : Nat) (sched : List Nat)
    (hperm : sched.Perm (List.range normCount)) :
    (∀ j,
      (runSchedule simplified epsilon scaleData biasData normSize xData sched).yRows j
        = (runSchedule simplified epsilon scaleData biasData normSize xData
            (List.range normCount)).yRows j
      ∧ (runSchedule simplified epsilon scaleData biasData normSize xData sched).meanSlots j
        = (runSchedule simplified epsilon scaleData biasData normSize xData
            (List.range normCount)).meanSlots j
      ∧ (runSchedule simplified epsilon scaleData biasData normSize xData sched).invSlots j
        = (runSchedule simplified epsilon scaleData biasData normSize xData
            (List.range normCount)).invSlots j)
    ∧ ∀ j, j < normCount →
      (runSchedule simplified epsilon scaleData biasData normSize xData sched).yRows j
        = some (computeRow simplified epsilon scaleData biasData normSize
            (rowOf xData normSize j)).out := by
  constructor
  · intro j
    rcases runTasks_slots simplified epsilon scaleData biasData normSize xData
      sched (initState T) j with ⟨a1, a2, a3⟩
    rcases runTasks_slots simplified epsilon scaleData biasData normSize xData
      (List.range normCount) (initState T) j with ⟨b1, b2, b3⟩
    refine ⟨?_, ?_, ?_⟩ <;>
      simp only [runSchedule, a1, a2, a3, b1, b2, b3, hperm.mem_iff]
  · intro j hj
    rcases runTasks_slots simplified epsilon scaleData biasData normSize xData
      sched (initState T) j with ⟨a1, _, _⟩
    simp only [runSchedule, a1, hperm.mem_iff, List.mem_range]
    simp [hj]

/-- Witness for C9: two rows executed in reversed order `[1, 0]` give the
same slot contents as the sequential order `[0, 1]`. -/
theorem C9_schedule_independence_witness :
    ([1, 0] : List Nat).Perm (List.range 2) ∧
    ((∀ j,
      (runSchedule false ((1 : Rat)/100000) [1, 1] none 2 [1, 2, 3, 4] [1, 0]).yRows j
        = (runSchedule false ((1 : Rat)/100000) [1, 1] none 2 [1, 2, 3, 4]
            (List.range 2)).yRows j
      ∧ (runSchedule false ((1 : Rat)/100000) [1, 1] none 2 [1, 2, 3, 4] [1, 0]).meanSlots j
        = (runSchedule false ((1 : Rat)/100000) [1, 1] none 2 [1, 2, 3, 4]
            (List.range 2)).meanSlots j
      ∧ (runSchedule false ((1 : Rat)/100000) [1, 1] none 2 [1, 2, 3, 4] [1, 0]).invSlots j
        = (runSchedule false ((1 : Rat)/100000) [1, 1] none 2 [1, 2, 3, 4]
            (List.range 2)).invSlots j)
    ∧ ∀ j, j < 2 →
      (runSchedule false ((1 : Rat)/100000) [1, 1] none 2 [1, 2, 3, 4] [1, 0]).yRows j
        = some (computeRow false ((1 : Rat)/100000) [1, 1] none 2
            (rowOf [1, 2, 3, 4] 2 j)).out) :=
  ⟨by decide,
    C9_schedule_independence false ((1 : Rat)/100000) [1, 1] none 2 [1, 2, 3, 4]
      2 [1, 0] (by decide)⟩

/-- Claim C10: the inv-std-dev output sits at operator output index 1 in
simplified mode (right after `Y`) and at index 2 in non-simplified mode
(after `Y` and mean); the slot that holds means in full mode (index 1) is the
slot that holds inverse standard deviations in simplified mode. -/
theorem C10_output_slots :
    outputIndices true = (none, 1)
    ∧ outputIndices false = (some 1, 2)
    ∧ (outputIndices false).1 = some (outputIndices true).2 :=
  ⟨rfl, rfl, rfl⟩

end LayerNorm
